import Mathlib

/-!
# SmartFalcon REST bridge (`Rest-api/app.js`)

A shallow embedding of the Express application in `Rest-api/app.js`: the
connection routine `connectToFabric`, the two route handlers registered with
`app.post('/assets', ...)` and `app.get('/assets/:id', ...)`, and the
application-level dispatch through the `express.json()` middleware.

Everything outside the file (Node's `fs` and `path`, `JSON.parse`, the
`fabric-network` SDK, Express itself) is an environment `Env W` acting on an
abstract world `W`.  Each environment call is logged, with its arguments and its
outcome, in a trace, so that statements about which calls happen, in which order
and with which arguments are statements about that trace.

Not modelled: a promise that never settles (every environment call returns), and
thrown values that are not `Error` objects (a thrown value has a `message`).
-/

namespace SmartFalcon

/-! ## Values -/

/-- A thrown JavaScript `Error`, identified by its `message`. -/
structure JsError where
  message : String
  deriving DecidableEq, Repr

/-- JavaScript values that can appear in a parsed JSON document or as a
destructured field (`undefined` included).  Numbers carry an integer payload;
the handlers never inspect them. -/
inductive JsValue where
  | undefined : JsValue
  | null : JsValue
  | bool (b : Bool) : JsValue
  | number (n : Int) : JsValue
  | string (s : String) : JsValue
  | array (items : List JsValue) : JsValue
  | object (fields : List (String × JsValue)) : JsValue

/-- A wallet object returned by `Wallets.newFileSystemWallet`. -/
structure Wallet where
  ref : Nat
  deriving DecidableEq, Repr

/-- A gateway object created by `new Gateway()`. -/
structure Gateway where
  ref : Nat
  deriving DecidableEq, Repr

/-- A network object returned by `gateway.getNetwork`. -/
structure Network where
  ref : Nat
  deriving DecidableEq, Repr

/-- A contract object returned by `network.getContract`. -/
structure Contract where
  ref : Nat
  deriving DecidableEq, Repr

/-- A Node `Buffer`, as returned by `submitTransaction` and
`evaluateTransaction`. -/
structure Buffer where
  bytes : List Nat
  deriving DecidableEq, Repr

/-- The options object passed to `gateway.connect` (lines 16-20):
`wallet`, `identity`, and the two `discovery` flags `enabled` and `asLocalhost`. -/
structure GatewayOptions where
  wallet : Wallet
  identity : String
  discoveryEnabled : Bool
  discoveryAsLocalhost : Bool
  deriving DecidableEq, Repr

/-- The body handed to `res.send`: an object (sent as JSON) or a string. -/
inductive Body where
  | json (fields : List (String × JsValue)) : Body
  | text (s : String) : Body

/-- An HTTP response: `res.status(status).send(body)`. -/
structure Response where
  status : Nat
  body : Body

/-- An error passed to `next(err)` by a middleware: Express answers it with
`err.status`. -/
structure HttpError where
  status : Nat
  message : String
  deriving DecidableEq, Repr

/-! ## Trace of environment calls -/

/-- One call made to the environment, with its arguments and its outcome. -/
inductive Event where
  | readFileSync (path encoding : String) (res : Except JsError String)
  | jsonParse (text : String) (res : Except JsError JsValue)
  | newFileSystemWallet (path : String) (res : Except JsError Wallet)
  | newGateway (res : Gateway)
  | connect (gateway : Gateway) (ccp : JsValue) (options : GatewayOptions)
      (res : Except JsError Unit)
  | getNetwork (gateway : Gateway) (channel : String) (res : Except JsError Network)
  | getContract (network : Network) (chaincode : String) (res : Except JsError Contract)
  | submitTransaction (contract : Contract) (name : String) (args : List JsValue)
      (res : Except JsError Buffer)
  | evaluateTransaction (contract : Contract) (name : String) (args : List JsValue)
      (res : Except JsError Buffer)

/-- Whether the event is a `submitTransaction` call. -/
def Event.isSubmit : Event → Bool
  | .submitTransaction _ _ _ _ => true
  | _ => false

/-- Whether the event is an `evaluateTransaction` call. -/
def Event.isEvaluate : Event → Bool
  | .evaluateTransaction _ _ _ _ => true
  | _ => false

/-- Whether the event is a contract invocation (submit or evaluate). -/
def Event.isContractCall (e : Event) : Bool :=
  e.isSubmit || e.isEvaluate

/-- Whether the event opens the wallet. -/
def Event.isWalletOpen : Event → Bool
  | .newFileSystemWallet _ _ => true
  | _ => false

/-- Whether the event creates or connects a gateway. -/
def Event.isGatewayStep : Event → Bool
  | .newGateway _ => true
  | .connect _ _ _ _ => true
  | _ => false

/-- The contract invocations of a trace, in order. -/
def contractCalls (trace : List Event) : List Event :=
  trace.filter Event.isContractCall

/-! ## Environment -/

/-- Everything `app.js` imports or reaches: Node's `path`, `fs`, `process`,
`JSON.parse`, `Buffer.prototype.toString`, the `fabric-network` SDK, and the two
pieces of Express that decide a response outside the route handlers
(`express.json()` and the default error handler).  Operations with an effect
take the world and return the new one. -/
structure Env (W : Type) where
  cwd : String
  resolve : List String → String
  join : List String → String
  readFileSync : String → String → W → Except JsError String × W
  jsonParse : String → Except JsError JsValue
  newFileSystemWallet : String → W → Except JsError Wallet × W
  newGateway : W → Gateway × W
  connect : Gateway → JsValue → GatewayOptions → W → Except JsError Unit × W
  getNetwork : Gateway → String → W → Except JsError Network × W
  getContract : Network → String → W → Except JsError Contract × W
  submitTransaction : Contract → String → List JsValue → W → Except JsError Buffer × W
  evaluateTransaction : Contract → String → List JsValue → W → Except JsError Buffer × W
  bufferToString : Buffer → String
  json : String → Except HttpError JsValue
  finalHandler : HttpError → Response

/-- The state threaded through a request: the outside world and the calls made
so far. -/
structure St (W : Type) where
  world : W
  trace : List Event

/-- A computation that may throw, over the threaded state.  A throw keeps the
state reached so far. -/
def Eff (W : Type) (α : Type) : Type :=
  St W → Except JsError α × St W

/-- Return a value without touching the state. -/
def Eff.pure {W α : Type} (a : α) : Eff W α :=
  fun s => (.ok a, s)

/-- Sequencing: a throw in the first computation skips the second. -/
def Eff.bind {W α β : Type} (m : Eff W α) (f : α → Eff W β) : Eff W β :=
  fun s =>
    match m s with
    | (.ok a, s1) => f a s1
    | (.error e, s1) => (.error e, s1)

instance {W : Type} : Monad (Eff W) where
  pure := Eff.pure
  bind := Eff.bind

/-- Lift a pure JavaScript step that may throw. -/
def Eff.ofExcept {W α : Type} (r : Except JsError α) : Eff W α :=
  fun s => (r, s)

/-- Perform an environment call that may fail, logging it with its outcome. -/
def Eff.call {W α : Type} (op : W → Except JsError α × W)
    (ev : Except JsError α → Event) : Eff W α :=
  fun s =>
    match op s.world with
    | (r, w1) => (r, { world := w1, trace := s.trace ++ [ev r] })

/-- Perform an environment call that cannot fail, logging it. -/
def Eff.callTotal {W α : Type} (op : W → α × W) (ev : α → Event) : Eff W α :=
  fun s =>
    match op s.world with
    | (a, w1) => (.ok a, { world := w1, trace := s.trace ++ [ev a] })

/-! ## `connectToFabric` (lines 8-25) -/

/-- The routine `connectToFabric`: resolve the profile path, read and parse the
profile, open the wallet under the working directory, create a gateway and
connect it as `User1` with discovery enabled as localhost, then get network
`mychannel` and contract `asset-transfer-basic`. -/
def connectToFabric {W : Type} (env : Env W) : Eff W Contract := do
  let ccpPath := env.resolve ["Reset-api", "connection.json"]
  let text ← Eff.call (env.readFileSync ccpPath "utf8") (Event.readFileSync ccpPath "utf8")
  let ccp ← Eff.call (fun w => (env.jsonParse text, w)) (Event.jsonParse text)
  let walletPath := env.join [env.cwd, "wallet"]
  let wallet ← Eff.call (env.newFileSystemWallet walletPath) (Event.newFileSystemWallet walletPath)
  let gateway ← Eff.callTotal env.newGateway Event.newGateway
  let options : GatewayOptions :=
    { wallet := wallet, identity := "User1",
      discoveryEnabled := true, discoveryAsLocalhost := true }
  Eff.call (env.connect gateway ccp options) (Event.connect gateway ccp options)
  let network ← Eff.call (env.getNetwork gateway "mychannel") (Event.getNetwork gateway "mychannel")
  let contract ← Eff.call (env.getContract network "asset-transfer-basic")
    (Event.getContract network "asset-transfer-basic")
  return contract

/-! ## Route handlers (lines 26-44) -/

/-- Property lookup on the fields of a parsed object (absent: `undefined`). -/
def lookupField : List (String × JsValue) → String → JsValue
  | [], _ => .undefined
  | (k, v) :: rest, key => if k = key then v else lookupField rest key

/-- The value read for property `id` or `value` of a non-nullish body: a field of
an object, and `undefined` on a primitive or an array (none has such a
property). -/
def JsValue.field (body : JsValue) (key : String) : JsValue :=
  match body with
  | .object fields => lookupField fields key
  | _ => .undefined

/-- The `TypeError` V8 throws when destructuring `undefined` or `null`. -/
def destructureError (what : String) : JsError :=
  { message := "Cannot destructure property 'id' of 'req.body' as it is " ++ what ++ "." }

/-- Line 29, the destructuring of `id` and `value` from `req.body`: throws on a nullish body,
otherwise reads the two properties. -/
def destructure (body : JsValue) : Except JsError (JsValue × JsValue) :=
  match body with
  | .undefined => .error (destructureError "undefined")
  | .null => .error (destructureError "null")
  | b => .ok (b.field "id", b.field "value")

/-- The `try` block of the POST handler (lines 28-31). -/
def postAssetsTry {W : Type} (env : Env W) (body : JsValue) : Eff W Response := do
  let contract ← connectToFabric env
  let (id, value) ← Eff.ofExcept (destructure body)
  let _ ← Eff.call (env.submitTransaction contract "CreateAsset" [id, value])
    (Event.submitTransaction contract "CreateAsset" [id, value])
  return { status := 201, body := .json [("message", .string "Asset created successfully")] }

/-- The `catch` block shared by both handlers (lines 33 and 42). -/
def errorResponse (error : JsError) : Response :=
  { status := 500, body := .json [("error", .string error.message)] }

/-- The handler of `POST /assets` (lines 26-35), run on the parsed body. -/
def postAssets {W : Type} (env : Env W) (body : JsValue) (s : St W) : Response × St W :=
  match postAssetsTry env body s with
  | (.ok res, s1) => (res, s1)
  | (.error error, s1) => (errorResponse error, s1)

/-- The `try` block of the GET handler (lines 38-40). -/
def getAssetTry {W : Type} (env : Env W) (id : String) : Eff W Response := do
  let contract ← connectToFabric env
  let result ← Eff.call (env.evaluateTransaction contract "ReadAsset" [.string id])
    (Event.evaluateTransaction contract "ReadAsset" [.string id])
  return { status := 200, body := .text (env.bufferToString result) }

/-- The handler of `GET /assets/:id` (lines 36-44), run on the path parameter. -/
def getAsset {W : Type} (env : Env W) (id : String) (s : St W) : Response × St W :=
  match getAssetTry env id s with
  | (.ok res, s1) => (res, s1)
  | (.error error, s1) => (errorResponse error, s1)

/-! ## Symbolic execution of `connectToFabric` -/

/-- The profile path of line 9. -/
def ccpPathOf {W : Type} (env : Env W) : String :=
  env.resolve ["Reset-api", "connection.json"]

/-- The wallet path of line 12. -/
def walletPathOf {W : Type} (env : Env W) : String :=
  env.join [env.cwd, "wallet"]

/-- The options of lines 17-19 for a given wallet. -/
def optionsOf (wallet : Wallet) : GatewayOptions :=
  { wallet := wallet, identity := "User1",
    discoveryEnabled := true, discoveryAsLocalhost := true }

/-- The events of a run of `connectToFabric` in which every step succeeds. -/
def connectEvents {W : Type} (env : Env W) (text : String) (ccp : JsValue) (wallet : Wallet)
    (gateway : Gateway) (network : Network) (contract : Contract) : List Event :=
  [ .readFileSync (ccpPathOf env) "utf8" (.ok text),
    .jsonParse text (.ok ccp),
    .newFileSystemWallet (walletPathOf env) (.ok wallet),
    .newGateway gateway,
    .connect gateway ccp (optionsOf wallet) (.ok ()),
    .getNetwork gateway "mychannel" (.ok network),
    .getContract network "asset-transfer-basic" (.ok contract) ]

/-- The `k`-th step of `connectToFabric` as an event that failed with `e`, given
the values obtained by the steps before it. -/
def failedStep {W : Type} (env : Env W) (text : String) (ccp : JsValue) (wallet : Wallet)
    (gateway : Gateway) (network : Network) (e : JsError) : Nat → Event
  | 0 => .readFileSync (ccpPathOf env) "utf8" (.error e)
  | 1 => .jsonParse text (.error e)
  | 2 => .newFileSystemWallet (walletPathOf env) (.error e)
  | 4 => .connect gateway ccp (optionsOf wallet) (.error e)
  | 5 => .getNetwork gateway "mychannel" (.error e)
  | _ => .getContract network "asset-transfer-basic" (.error e)

/-- The response of line 31. -/
def createdResponse : Response :=
  { status := 201, body := .json [("message", .string "Asset created successfully")] }

/-- The response of line 40 for an evaluate result. -/
def readResponse {W : Type} (env : Env W) (result : Buffer) : Response :=
  { status := 200, body := .text (env.bufferToString result) }

/-! ## Application dispatch (lines 6-7, 26, 36) -/

/-- The two routes registered on the application. -/
inductive Route where
  | postAssets : Route
  | getAssetsId (id : String) : Route

/-- An inbound request for one of the two routes, with its raw body. -/
structure Request where
  route : Route
  rawBody : String

/-- The application: `app.use(json())` runs first.  When the body parser passes
an error to `next`, no route handler runs and Express's default error handler
answers (no error-handling middleware is registered); otherwise the route's
handler runs on the parsed body. -/
def app {W : Type} (env : Env W) (req : Request) (s : St W) : Response × St W :=
  match env.json req.rawBody with
  | .error err => (env.finalHandler err, s)
  | .ok body =>
    match req.route with
    | .postAssets => postAssets env body s
    | .getAssetsId id => getAsset env id s

/-- Requests handled one after the other.  Each starts from an empty trace; the
only thing passed from one request to the next is the outside world, since
`app.js` has no module-level mutable binding.  Returns, per request, the
response and the environment calls made. -/
def serve {W : Type} (env : Env W) : List Request → W → List (Response × List Event) × W
  | [], w => ([], w)
  | req :: rest, w =>
    match app env req { world := w, trace := [] } with
    | (res, s1) =>
      match serve env rest s1.world with
      | (out, w2) => ((res, s1.trace) :: out, w2)

/-! ## Reading a trace against the environment -/

/-- The error an event ended with, if it failed. -/
def Event.failure : Event → Option JsError
  | .readFileSync _ _ (.error e) => some e
  | .jsonParse _ (.error e) => some e
  | .newFileSystemWallet _ (.error e) => some e
  | .connect _ _ _ (.error e) => some e
  | .getNetwork _ _ (.error e) => some e
  | .getContract _ _ (.error e) => some e
  | .submitTransaction _ _ _ (.error e) => some e
  | .evaluateTransaction _ _ _ (.error e) => some e
  | _ => none

/-- The contract object a contract invocation is made on. -/
def Event.contract : Event → Option Contract
  | .submitTransaction c _ _ _ => some c
  | .evaluateTransaction c _ _ _ => some c
  | _ => none

/-- The event is what the environment does in world `w`: the call, made in `w`,
has the logged outcome and leaves world `w1`. -/
def Event.performedAt {W : Type} (env : Env W) (w w1 : W) : Event → Prop
  | .readFileSync path encoding res => env.readFileSync path encoding w = (res, w1)
  | .jsonParse text res => (env.jsonParse text, w) = (res, w1)
  | .newFileSystemWallet path res => env.newFileSystemWallet path w = (res, w1)
  | .newGateway res => env.newGateway w = (res, w1)
  | .connect gateway ccp options res => env.connect gateway ccp options w = (res, w1)
  | .getNetwork gateway channel res => env.getNetwork gateway channel w = (res, w1)
  | .getContract network chaincode res => env.getContract network chaincode w = (res, w1)
  | .submitTransaction contract name args res =>
      env.submitTransaction contract name args w = (res, w1)
  | .evaluateTransaction contract name args res =>
      env.evaluateTransaction contract name args w = (res, w1)

/-- The trace is what the environment does from world `w`, ending in `w1`: each
event in turn has the environment's outcome. -/
def Replays {W : Type} (env : Env W) : W → List Event → W → Prop
  | w, [], w1 => w1 = w
  | w, ev :: rest, w1 => ∃ wm, ev.performedAt env w wm ∧ Replays env wm rest w1

/-- Every environment operation other than `submitTransaction` leaves the
ledger, as seen through `view`, unchanged. -/
def LedgerChangedOnlyBySubmit {W L : Type} (env : Env W) (view : W → L) : Prop :=
  ∀ (ev : Event) (w w1 : W), ev.isSubmit = false → ev.performedAt env w w1 → view w1 = view w

/-- Reading or JSON-parsing the network profile fails with `e` in world `w`. -/
def ProfileFails {W : Type} (env : Env W) (w : W) (e : JsError) : Prop :=
  (∃ w1, env.readFileSync (ccpPathOf env) "utf8" w = (.error e, w1)) ∨
  (∃ text w1, env.readFileSync (ccpPathOf env) "utf8" w = (.ok text, w1) ∧
    env.jsonParse text = .error e)

/-- Connecting a gateway as `User1` fails whatever the profile, wallet and
world (the identity is absent from the wallet). -/
def User1Absent {W : Type} (env : Env W) : Prop :=
  ∀ gateway ccp wallet w, ∃ e w1, env.connect gateway ccp (optionsOf wallet) w = (.error e, w1)

/-- The computation only adds to the trace, what it adds is what the environment
does from the world it starts in, and wherever the environment does the same
again the computation has the same result and adds the same events. -/
def Lawful {W α : Type} (env : Env W) (m : Eff W α) : Prop :=
  ∀ s : St W, ∃ t, (m s).2.trace = s.trace ++ t ∧ Replays env s.world t (m s).2.world ∧
    ∀ (s2 : St W) (w2 : W), Replays env s2.world t w2 →
      m s2 = ((m s).1, { world := w2, trace := s2.trace ++ t })

/-! ## A sample environment -/

/-- A toy ledger: the assets created so far, as `(id, value)` pairs. -/
abbrev Ledger : Type := List (String × String)

/-- The value stored under `id` in the toy ledger. -/
def Ledger.find : Ledger → String → Option String
  | [], _ => none
  | (k, v) :: rest, id => if k = id then some v else Ledger.find rest id

/-- The raw JSON text of the body with `id` `asset1` and `value` `100`. -/
def asset1Json : String :=
  "\x7b\"id\":\"asset1\",\"value\":\"100\"\x7d"

/-- A reachable test network: the profile is present and parses, `User1` is in
the wallet, and the chaincode keeps a toy ledger (`CreateAsset` rejects an
existing id, `ReadAsset` rejects an unknown one).  The body parser accepts the
body of `asset1Json` and an empty body, and rejects anything else with status
400, which the default error handler echoes. -/
def sampleEnv : Env Ledger where
  cwd := "/srv"
  resolve := fun _ => "/srv/Reset-api/connection.json"
  join := fun _ => "/srv/wallet"
  readFileSync := fun _ _ w => (.ok "profile", w)
  jsonParse := fun _ => .ok (.object [("name", .string "test-network")])
  newFileSystemWallet := fun _ w => (.ok { ref := 1 }, w)
  newGateway := fun w => ({ ref := 2 }, w)
  connect := fun _ _ _ w => (.ok (), w)
  getNetwork := fun _ _ w => (.ok { ref := 3 }, w)
  getContract := fun _ _ w => (.ok { ref := 4 }, w)
  submitTransaction := fun _ _ args w =>
    match args with
    | [.string id, .string value] =>
      match Ledger.find w id with
      | some _ => (.error { message := "the asset already exists" }, w)
      | none => (.ok { bytes := [] }, (id, value) :: w)
    | _ => (.error { message := "Incorrect number of params. Expected 2" }, w)
  evaluateTransaction := fun _ _ args w =>
    match args with
    | [.string id] =>
      match Ledger.find w id with
      | some v => (.ok { bytes := v.toList.map Char.toNat }, w)
      | none => (.error { message := "the asset does not exist" }, w)
    | _ => (.error { message := "Incorrect number of params. Expected 1" }, w)
  bufferToString := fun b => String.mk (b.bytes.map Char.ofNat)
  json := fun raw =>
    if raw = asset1Json then .ok (.object [("id", .string "asset1"), ("value", .string "100")])
    else if raw = "" then .ok (.object [])
    else .error { status := 400, message := "Unexpected token in JSON" }
  finalHandler := fun err => { status := err.status, body := .text err.message }

/-- The sample network with the profile file missing. -/
def noProfileEnv : Env Ledger :=
  { sampleEnv with
    readFileSync := fun _ _ w =>
      (.error { message := "ENOENT: no such file or directory" }, w) }

/-- The sample network with `User1` missing from the wallet. -/
def noIdentityEnv : Env Ledger :=
  { sampleEnv with
    connect := fun _ _ _ w => (.error { message := "Identity not found in wallet: User1" }, w) }

/-! ## Stepping lemmas -/

theorem Eff.call_bind_ok {W α β : Type} (op : W → Except JsError α × W)
    (ev : Except JsError α → Event) (f : α → Eff W β) (s : St W) (a : α) (w1 : W)
    (h : op s.world = (.ok a, w1)) :
    (Eff.call op ev >>= f) s = f a { world := w1, trace := s.trace ++ [ev (.ok a)] } := by
  show Eff.bind (Eff.call op ev) f s = _
  simp only [Eff.bind, Eff.call, h]

theorem Eff.call_bind_error {W α β : Type} (op : W → Except JsError α × W)
    (ev : Except JsError α → Event) (f : α → Eff W β) (s : St W) (e : JsError) (w1 : W)
    (h : op s.world = (.error e, w1)) :
    (Eff.call op ev >>= f) s = (.error e, { world := w1, trace := s.trace ++ [ev (.error e)] }) := by
  show Eff.bind (Eff.call op ev) f s = _
  simp only [Eff.bind, Eff.call, h]

theorem Eff.callTotal_bind {W α β : Type} (op : W → α × W) (ev : α → Event)
    (f : α → Eff W β) (s : St W) (a : α) (w1 : W) (h : op s.world = (a, w1)) :
    (Eff.callTotal op ev >>= f) s = f a { world := w1, trace := s.trace ++ [ev a] } := by
  show Eff.bind (Eff.callTotal op ev) f s = _
  simp only [Eff.bind, Eff.callTotal, h]

theorem Eff.pure_apply {W α : Type} (a : α) (s : St W) :
    (Pure.pure a : Eff W α) s = (.ok a, s) := rfl

/-- Success of `connectToFabric`: the trace grows by exactly the seven events of
`connectEvents`, every outcome is the environment's, and the contract returned
is the one `getContract` gave. -/
theorem connectToFabric_ok {W : Type} (env : Env W) (s s1 : St W) (c : Contract)
    (h : connectToFabric env s = (.ok c, s1)) :
    ∃ text ccp wallet gateway network w1 w2 w3 w4 w5,
      env.readFileSync (ccpPathOf env) "utf8" s.world = (.ok text, w1) ∧
      env.jsonParse text = .ok ccp ∧
      env.newFileSystemWallet (walletPathOf env) w1 = (.ok wallet, w2) ∧
      env.newGateway w2 = (gateway, w3) ∧
      env.connect gateway ccp (optionsOf wallet) w3 = (.ok (), w4) ∧
      env.getNetwork gateway "mychannel" w4 = (.ok network, w5) ∧
      env.getContract network "asset-transfer-basic" w5 = (.ok c, s1.world) ∧
      s1.trace = s.trace ++ connectEvents env text ccp wallet gateway network c := by
  unfold connectToFabric at h
  simp only [connectEvents, ccpPathOf, walletPathOf, optionsOf] at h ⊢
  rcases h1 : env.readFileSync (env.resolve ["Reset-api", "connection.json"]) "utf8" s.world
    with ⟨e | text, w1⟩
  · rw [Eff.call_bind_error _ _ _ _ _ _ h1] at h
    simp at h
  rw [Eff.call_bind_ok _ _ _ _ _ _ h1] at h
  rcases h2 : env.jsonParse text with e | ccp
  · rw [Eff.call_bind_error _ _ _ _ e w1 (by simp [h2])] at h
    simp at h
  rw [Eff.call_bind_ok _ _ _ _ ccp w1 (by simp [h2])] at h
  rcases h3 : env.newFileSystemWallet (env.join [env.cwd, "wallet"]) w1 with ⟨e | wallet, w2⟩
  · rw [Eff.call_bind_error _ _ _ _ _ _ h3] at h
    simp at h
  rw [Eff.call_bind_ok _ _ _ _ _ _ h3] at h
  rcases h4 : env.newGateway w2 with ⟨gateway, w3⟩
  rw [Eff.callTotal_bind _ _ _ _ _ _ h4] at h
  rcases h5 : env.connect gateway ccp (optionsOf wallet) w3 with ⟨e | u, w4⟩
  · rw [Eff.call_bind_error _ _ _ _ _ _ h5] at h
    simp at h
  rw [Eff.call_bind_ok _ _ _ _ _ _ h5] at h
  rcases h6 : env.getNetwork gateway "mychannel" w4 with ⟨e | network, w5⟩
  · rw [Eff.call_bind_error _ _ _ _ _ _ h6] at h
    simp at h
  rw [Eff.call_bind_ok _ _ _ _ _ _ h6] at h
  rcases h7 : env.getContract network "asset-transfer-basic" w5 with ⟨e | contract, w6⟩
  · rw [Eff.call_bind_error _ _ _ _ _ _ h7] at h
    simp at h
  rw [Eff.call_bind_ok _ _ _ _ _ _ h7, Eff.pure_apply] at h
  simp only [Prod.mk.injEq, Except.ok.injEq] at h
  obtain ⟨rfl, rfl⟩ := h
  exact ⟨text, ccp, wallet, gateway, network, w1, w2, w3, w4, w5, rfl, h2, h3, h4, h5, h6, h7,
    by simp⟩

/-- Failure of `connectToFabric` with `e`: the trace grows by the first `k`
events of a successful run followed by the failing step `k`, and by nothing
else (`k = 3`, the `new Gateway()` construction, cannot fail). -/
theorem connectToFabric_error {W : Type} (env : Env W) (s s1 : St W) (e : JsError)
    (h : connectToFabric env s = (.error e, s1)) :
    ∃ text ccp wallet gateway network contract k, k < 7 ∧ k ≠ 3 ∧
      s1.trace = s.trace ++
        ((connectEvents env text ccp wallet gateway network contract).take k ++
          [failedStep env text ccp wallet gateway network e k]) := by
  unfold connectToFabric at h
  simp only [connectEvents, ccpPathOf, walletPathOf, optionsOf] at h ⊢
  rcases h1 : env.readFileSync (env.resolve ["Reset-api", "connection.json"]) "utf8" s.world
    with ⟨e1 | text, w1⟩
  · rw [Eff.call_bind_error _ _ _ _ _ _ h1] at h
    simp only [Prod.mk.injEq, Except.error.injEq] at h
    obtain ⟨rfl, rfl⟩ := h
    exact ⟨"", .undefined, ⟨0⟩, ⟨0⟩, ⟨0⟩, ⟨0⟩, 0, by decide, by decide, by simp [failedStep, ccpPathOf]⟩
  rw [Eff.call_bind_ok _ _ _ _ _ _ h1] at h
  rcases h2 : env.jsonParse text with e2 | ccp
  · rw [Eff.call_bind_error _ _ _ _ e2 w1 (by simp [h2])] at h
    simp only [Prod.mk.injEq, Except.error.injEq] at h
    obtain ⟨rfl, rfl⟩ := h
    exact ⟨text, .undefined, ⟨0⟩, ⟨0⟩, ⟨0⟩, ⟨0⟩, 1, by decide, by decide, by simp [failedStep, h2]⟩
  rw [Eff.call_bind_ok _ _ _ _ ccp w1 (by simp [h2])] at h
  rcases h3 : env.newFileSystemWallet (env.join [env.cwd, "wallet"]) w1 with ⟨e3 | wallet, w2⟩
  · rw [Eff.call_bind_error _ _ _ _ _ _ h3] at h
    simp only [Prod.mk.injEq, Except.error.injEq] at h
    obtain ⟨rfl, rfl⟩ := h
    exact ⟨text, ccp, ⟨0⟩, ⟨0⟩, ⟨0⟩, ⟨0⟩, 2, by decide, by decide,
      by simp [failedStep, h2, walletPathOf]⟩
  rw [Eff.call_bind_ok _ _ _ _ _ _ h3] at h
  rcases h4 : env.newGateway w2 with ⟨gateway, w3⟩
  rw [Eff.callTotal_bind _ _ _ _ _ _ h4] at h
  rcases h5 : env.connect gateway ccp (optionsOf wallet) w3 with ⟨e5 | u, w4⟩
  · rw [Eff.call_bind_error _ _ _ _ _ _ h5] at h
    simp only [Prod.mk.injEq, Except.error.injEq] at h
    obtain ⟨rfl, rfl⟩ := h
    exact ⟨text, ccp, wallet, gateway, ⟨0⟩, ⟨0⟩, 4, by decide, by decide,
      by simp [failedStep, h2, optionsOf]⟩
  rw [Eff.call_bind_ok _ _ _ _ _ _ h5] at h
  rcases h6 : env.getNetwork gateway "mychannel" w4 with ⟨e6 | network, w5⟩
  · rw [Eff.call_bind_error _ _ _ _ _ _ h6] at h
    simp only [Prod.mk.injEq, Except.error.injEq] at h
    obtain ⟨rfl, rfl⟩ := h
    exact ⟨text, ccp, wallet, gateway, ⟨0⟩, ⟨0⟩, 5, by decide, by decide,
      by simp [failedStep, h2, optionsOf]⟩
  rw [Eff.call_bind_ok _ _ _ _ _ _ h6] at h
  rcases h7 : env.getContract network "asset-transfer-basic" w5 with ⟨e7 | contract, w6⟩
  · rw [Eff.call_bind_error _ _ _ _ _ _ h7] at h
    simp only [Prod.mk.injEq, Except.error.injEq] at h
    obtain ⟨rfl, rfl⟩ := h
    exact ⟨text, ccp, wallet, gateway, network, ⟨0⟩, 6, by decide, by decide,
      by simp [failedStep, h2, optionsOf]⟩
  rw [Eff.call_bind_ok _ _ _ _ _ _ h7, Eff.pure_apply] at h
  simp at h

theorem Eff.bind_ok {W α β : Type} (m : Eff W α) (f : α → Eff W β) (s s1 : St W) (a : α)
    (h : m s = (.ok a, s1)) : (m >>= f) s = f a s1 := by
  show Eff.bind m f s = _
  simp only [Eff.bind, h]

theorem Eff.bind_error {W α β : Type} (m : Eff W α) (f : α → Eff W β) (s s1 : St W)
    (e : JsError) (h : m s = (.error e, s1)) : (m >>= f) s = (.error e, s1) := by
  show Eff.bind m f s = _
  simp only [Eff.bind, h]

/-- POST: a failed connection goes straight to the `catch` block. -/
theorem postAssets_connect_error {W : Type} (env : Env W) (body : JsValue) (s s1 : St W)
    (e : JsError) (h : connectToFabric env s = (.error e, s1)) :
    postAssets env body s = (errorResponse e, s1) := by
  simp only [postAssets, postAssetsTry, Eff.bind_error _ _ _ _ _ h]

/-- POST: with a connection, a nullish body throws at the destructuring. -/
theorem postAssets_destructure_error {W : Type} (env : Env W) (body : JsValue) (s s1 : St W)
    (c : Contract) (e : JsError) (h : connectToFabric env s = (.ok c, s1))
    (hd : destructure body = .error e) :
    postAssets env body s = (errorResponse e, s1) := by
  simp only [postAssets, postAssetsTry, Eff.bind_ok _ _ _ _ _ h]
  rw [Eff.bind_error _ _ s1 s1 e (by simp [Eff.ofExcept, hd])]

/-- POST: with a connection and a destructured body, a rejected submit goes to
the `catch` block. -/
theorem postAssets_submit_error {W : Type} (env : Env W) (body id value : JsValue)
    (s s1 : St W) (c : Contract) (e : JsError) (w2 : W)
    (h : connectToFabric env s = (.ok c, s1)) (hd : destructure body = .ok (id, value))
    (hs : env.submitTransaction c "CreateAsset" [id, value] s1.world = (.error e, w2)) :
    postAssets env body s = (errorResponse e,
      { world := w2,
        trace := s1.trace ++ [.submitTransaction c "CreateAsset" [id, value] (.error e)] }) := by
  simp only [postAssets, postAssetsTry, Eff.bind_ok _ _ _ _ _ h]
  rw [Eff.bind_ok _ _ s1 s1 (id, value) (by simp [Eff.ofExcept, hd])]
  simp only []
  rw [Eff.call_bind_error _ _ _ _ _ _ hs]

/-- POST: with a connection, a destructured body and an accepted submit, the
handler answers 201. -/
theorem postAssets_submit_ok {W : Type} (env : Env W) (body id value : JsValue)
    (s s1 : St W) (c : Contract) (b : Buffer) (w2 : W)
    (h : connectToFabric env s = (.ok c, s1)) (hd : destructure body = .ok (id, value))
    (hs : env.submitTransaction c "CreateAsset" [id, value] s1.world = (.ok b, w2)) :
    postAssets env body s = (createdResponse,
      { world := w2,
        trace := s1.trace ++ [.submitTransaction c "CreateAsset" [id, value] (.ok b)] }) := by
  simp only [postAssets, postAssetsTry, Eff.bind_ok _ _ _ _ _ h]
  rw [Eff.bind_ok _ _ s1 s1 (id, value) (by simp [Eff.ofExcept, hd])]
  simp only []
  rw [Eff.call_bind_ok _ _ _ _ _ _ hs]
  rfl

/-- GET: a failed connection goes straight to the `catch` block. -/
theorem getAsset_connect_error {W : Type} (env : Env W) (id : String) (s s1 : St W)
    (e : JsError) (h : connectToFabric env s = (.error e, s1)) :
    getAsset env id s = (errorResponse e, s1) := by
  simp only [getAsset, getAssetTry, Eff.bind_error _ _ _ _ _ h]

/-- GET: with a connection, a rejected evaluate goes to the `catch` block. -/
theorem getAsset_evaluate_error {W : Type} (env : Env W) (id : String) (s s1 : St W)
    (c : Contract) (e : JsError) (w2 : W) (h : connectToFabric env s = (.ok c, s1))
    (hs : env.evaluateTransaction c "ReadAsset" [.string id] s1.world = (.error e, w2)) :
    getAsset env id s = (errorResponse e,
      { world := w2,
        trace := s1.trace ++ [.evaluateTransaction c "ReadAsset" [.string id] (.error e)] }) := by
  simp only [getAsset, getAssetTry, Eff.bind_ok _ _ _ _ _ h]
  rw [Eff.call_bind_error _ _ _ _ _ _ hs]

/-- GET: with a connection and an evaluate result, the handler answers 200 with
the result's text. -/
theorem getAsset_evaluate_ok {W : Type} (env : Env W) (id : String) (s s1 : St W)
    (c : Contract) (b : Buffer) (w2 : W) (h : connectToFabric env s = (.ok c, s1))
    (hs : env.evaluateTransaction c "ReadAsset" [.string id] s1.world = (.ok b, w2)) :
    getAsset env id s = ({ status := 200, body := .text (env.bufferToString b) },
      { world := w2,
        trace := s1.trace ++ [.evaluateTransaction c "ReadAsset" [.string id] (.ok b)] }) := by
  simp only [getAsset, getAssetTry, Eff.bind_ok _ _ _ _ _ h]
  rw [Eff.call_bind_ok _ _ _ _ _ _ hs]
  rfl


/-! ## Traces follow the environment -/

theorem Replays_append {W : Type} (env : Env W) (t1 t2 : List Event) :
    ∀ (w w1 : W), Replays env w (t1 ++ t2) w1 ↔
      ∃ wm, Replays env w t1 wm ∧ Replays env wm t2 w1 := by
  induction t1 with
  | nil =>
    intro w w1
    simp [Replays]
  | cons ev rest ih =>
    intro w w1
    show (∃ wm, ev.performedAt env w wm ∧ Replays env wm (rest ++ t2) w1) ↔
      ∃ wn, (∃ wm, ev.performedAt env w wm ∧ Replays env wm rest wn) ∧ Replays env wn t2 w1
    constructor
    · rintro ⟨wm, h1, h⟩
      obtain ⟨wn, h2, h3⟩ := (ih wm w1).1 h
      exact ⟨wn, ⟨wm, h1, h2⟩, h3⟩
    · rintro ⟨wn, ⟨wm, h1, h2⟩, h3⟩
      exact ⟨wm, h1, (ih wm w1).2 ⟨wn, h2, h3⟩⟩

theorem Lawful.pure {W α : Type} (env : Env W) (a : α) : Lawful env (Pure.pure a : Eff W α) := by
  intro s
  refine ⟨[], by simp [Eff.pure_apply], rfl, ?_⟩
  intro s2 w2 h
  simp only [Replays] at h
  subst h
  simp [Eff.pure_apply]

theorem Lawful.ofExcept {W α : Type} (env : Env W) (r : Except JsError α) :
    Lawful env (Eff.ofExcept r : Eff W α) := by
  intro s
  refine ⟨[], by simp [Eff.ofExcept], rfl, ?_⟩
  intro s2 w2 h
  simp only [Replays] at h
  subst h
  simp [Eff.ofExcept]

theorem Lawful.call {W α : Type} (env : Env W) (op : W → Except JsError α × W)
    (ev : Except JsError α → Event)
    (hpair : ∀ r w w1, (ev r).performedAt env w w1 ↔ op w = (r, w1)) :
    Lawful env (Eff.call op ev) := by
  intro s
  rcases h : op s.world with ⟨r, w1⟩
  refine ⟨[ev r], by simp [Eff.call, h], ?_, ?_⟩
  · simp only [Replays, Eff.call, h]
    exact ⟨w1, (hpair r s.world w1).2 h, rfl⟩
  · intro s2 w2 h2
    simp only [Replays] at h2
    obtain ⟨wm, hp, rfl⟩ := h2
    have := (hpair r s2.world w2).1 hp
    simp [Eff.call, h, this]

theorem Lawful.callTotal {W α : Type} (env : Env W) (op : W → α × W) (ev : α → Event)
    (hpair : ∀ a w w1, (ev a).performedAt env w w1 ↔ op w = (a, w1)) :
    Lawful env (Eff.callTotal op ev) := by
  intro s
  rcases h : op s.world with ⟨a, w1⟩
  refine ⟨[ev a], by simp [Eff.callTotal, h], ?_, ?_⟩
  · simp only [Replays, Eff.callTotal, h]
    exact ⟨w1, (hpair a s.world w1).2 h, rfl⟩
  · intro s2 w2 h2
    simp only [Replays] at h2
    obtain ⟨wm, hp, rfl⟩ := h2
    have := (hpair a s2.world w2).1 hp
    simp [Eff.callTotal, h, this]

theorem Lawful.bind {W α β : Type} (env : Env W) (m : Eff W α) (f : α → Eff W β)
    (hm : Lawful env m) (hf : ∀ a, Lawful env (f a)) : Lawful env (m >>= f) := by
  intro s
  obtain ⟨t1, ht1, hr1, hd1⟩ := hm s
  rcases h : m s with ⟨e | a, s1⟩
  · rw [Eff.bind_error _ _ _ _ _ h]
    rw [h] at ht1 hr1 hd1
    refine ⟨t1, ht1, hr1, ?_⟩
    intro s2 w2 h2
    rw [Eff.bind_error _ _ _ _ _ (hd1 s2 w2 h2)]
  · rw [Eff.bind_ok _ _ _ _ _ h]
    rw [h] at ht1 hr1 hd1
    obtain ⟨t2, ht2, hr2, hd2⟩ := hf a s1
    refine ⟨t1 ++ t2, ?_, ?_, ?_⟩
    · rw [ht2, ht1, List.append_assoc]
    · exact (Replays_append env t1 t2 _ _).2 ⟨s1.world, hr1, hr2⟩
    · intro s2 w2 h2
      obtain ⟨wm, ha, hb⟩ := (Replays_append env t1 t2 _ _).1 h2
      rw [Eff.bind_ok _ _ _ _ _ (hd1 s2 wm ha)]
      have := hd2 { world := wm, trace := s2.trace ++ t1 } w2 hb
      rw [this, List.append_assoc]

theorem connectToFabric_lawful {W : Type} (env : Env W) : Lawful env (connectToFabric env) := by
  unfold connectToFabric
  refine Lawful.bind _ _ _ (Lawful.call _ _ _ fun _ _ _ => Iff.rfl) fun text => ?_
  refine Lawful.bind _ _ _ (Lawful.call _ _ _ fun _ _ _ => Iff.rfl) fun ccp => ?_
  refine Lawful.bind _ _ _ (Lawful.call _ _ _ fun _ _ _ => Iff.rfl) fun wallet => ?_
  refine Lawful.bind _ _ _ (Lawful.callTotal _ _ _ fun _ _ _ => Iff.rfl) fun gateway => ?_
  refine Lawful.bind _ _ _ (Lawful.call _ _ _ fun _ _ _ => Iff.rfl) fun _ => ?_
  refine Lawful.bind _ _ _ (Lawful.call _ _ _ fun _ _ _ => Iff.rfl) fun network => ?_
  refine Lawful.bind _ _ _ (Lawful.call _ _ _ fun _ _ _ => Iff.rfl) fun contract => ?_
  exact Lawful.pure _ _

theorem postAssetsTry_lawful {W : Type} (env : Env W) (body : JsValue) :
    Lawful env (postAssetsTry env body) := by
  unfold postAssetsTry
  refine Lawful.bind _ _ _ (connectToFabric_lawful env) fun contract => ?_
  refine Lawful.bind _ _ _ (Lawful.ofExcept _ _) fun p => ?_
  obtain ⟨id, value⟩ := p
  refine Lawful.bind _ _ _ (Lawful.call _ _ _ fun _ _ _ => Iff.rfl) fun _ => ?_
  exact Lawful.pure _ _

theorem getAssetTry_lawful {W : Type} (env : Env W) (id : String) :
    Lawful env (getAssetTry env id) := by
  unfold getAssetTry
  refine Lawful.bind _ _ _ (connectToFabric_lawful env) fun contract => ?_
  refine Lawful.bind _ _ _ (Lawful.call _ _ _ fun _ _ _ => Iff.rfl) fun _ => ?_
  exact Lawful.pure _ _

/-! ## Case analysis of the handlers -/

theorem connectEvents_noContractCall {W : Type} (env : Env W) (text : String) (ccp : JsValue)
    (wallet : Wallet) (gateway : Gateway) (network : Network) (contract : Contract) :
    ∀ ev ∈ connectEvents env text ccp wallet gateway network contract,
      ev.isContractCall = false ∧ ev.failure = none := by
  intro ev hev
  simp only [connectEvents, List.mem_cons, List.mem_singleton, List.not_mem_nil, or_false] at hev
  rcases hev with h | h | h | h | h | h | h <;> subst h <;>
    simp [Event.isContractCall, Event.isSubmit, Event.isEvaluate, Event.failure]

/-- A failed connection made no contract call: its events are successful
connection steps followed by the one step that failed. -/
theorem connectToFabric_error_trace {W : Type} (env : Env W) (s s1 : St W)
    (e : JsError) (h : connectToFabric env s = (.error e, s1)) :
    ∃ t ev, s1.trace = s.trace ++ (t ++ [ev]) ∧ ev.failure = some e ∧
      ev.isContractCall = false ∧ ∀ x ∈ t, x.isContractCall = false ∧ x.failure = none := by
  obtain ⟨text, ccp, wallet, gateway, network, contract, k, hk, hk3, ht⟩ :=
    connectToFabric_error env s s1 e h
  refine ⟨_, _, ht, ?_, ?_, ?_⟩
  · interval_cases k <;> first | exact absurd rfl hk3 | rfl
  · interval_cases k <;> first | exact absurd rfl hk3 | rfl
  · intro x hx
    exact connectEvents_noContractCall env text ccp wallet gateway network contract x
      (List.mem_of_mem_take hx)

/-- When the profile cannot be read or parsed, `connectToFabric` fails with that
error after the read (and the parse), and makes no further call. -/
theorem connectToFabric_profileFails {W : Type} (env : Env W) (s : St W) (e : JsError)
    (h : ProfileFails env s.world e) :
    ∃ s1 t, connectToFabric env s = (.error e, s1) ∧ s1.trace = s.trace ++ t ∧
      ∀ ev ∈ t, ev.isContractCall = false ∧ ev.isWalletOpen = false ∧
        ev.isGatewayStep = false := by
  unfold ProfileFails ccpPathOf at h
  unfold connectToFabric
  simp only []
  rcases h with ⟨w1, h1⟩ | ⟨text, w1, h1, h2⟩
  · rw [Eff.call_bind_error _ _ _ _ _ _ h1]
    exact ⟨_, _, rfl, rfl, by
      simp [Event.isContractCall, Event.isSubmit, Event.isEvaluate, Event.isWalletOpen,
        Event.isGatewayStep]⟩
  · rw [Eff.call_bind_ok _ _ _ _ _ _ h1, Eff.call_bind_error _ _ _ _ e w1 (by simp [h2])]
    exact ⟨_, [.readFileSync (env.resolve ["Reset-api", "connection.json"]) "utf8" (.ok text),
        .jsonParse text (.error e)], rfl, by simp, by
      simp [Event.isContractCall, Event.isSubmit, Event.isEvaluate, Event.isWalletOpen,
        Event.isGatewayStep]⟩

/-- The three ways a run of the POST handler can go. -/
theorem postAssets_cases {W : Type} (env : Env W) (body : JsValue) (s : St W) :
    (∃ e s1, connectToFabric env s = (.error e, s1) ∧
      postAssets env body s = (errorResponse e, s1)) ∨
    (∃ c s1 e, connectToFabric env s = (.ok c, s1) ∧ destructure body = .error e ∧
      postAssets env body s = (errorResponse e, s1)) ∨
    (∃ c s1 id value r w2, connectToFabric env s = (.ok c, s1) ∧
      destructure body = .ok (id, value) ∧
      env.submitTransaction c "CreateAsset" [id, value] s1.world = (r, w2) ∧
      postAssets env body s =
        ((match r with
          | .ok _ => createdResponse
          | .error e => errorResponse e),
         { world := w2,
           trace := s1.trace ++ [.submitTransaction c "CreateAsset" [id, value] r] })) := by
  rcases hc : connectToFabric env s with ⟨e | c, s1⟩
  · exact Or.inl ⟨e, s1, rfl, postAssets_connect_error env body s s1 e hc⟩
  rcases hd : destructure body with e | ⟨id, value⟩
  · exact Or.inr (Or.inl ⟨c, s1, e, rfl, rfl, postAssets_destructure_error env body s s1 c e hc hd⟩)
  rcases hs : env.submitTransaction c "CreateAsset" [id, value] s1.world with ⟨e | b, w2⟩
  · exact Or.inr (Or.inr ⟨c, s1, id, value, .error e, w2, rfl, rfl, hs,
      postAssets_submit_error env body id value s s1 c e w2 hc hd hs⟩)
  · exact Or.inr (Or.inr ⟨c, s1, id, value, .ok b, w2, rfl, rfl, hs,
      postAssets_submit_ok env body id value s s1 c b w2 hc hd hs⟩)

/-- The two ways a run of the GET handler can go. -/
theorem getAsset_cases {W : Type} (env : Env W) (id : String) (s : St W) :
    (∃ e s1, connectToFabric env s = (.error e, s1) ∧
      getAsset env id s = (errorResponse e, s1)) ∨
    (∃ c s1 r w2, connectToFabric env s = (.ok c, s1) ∧
      env.evaluateTransaction c "ReadAsset" [.string id] s1.world = (r, w2) ∧
      getAsset env id s =
        ((match r with
          | .ok b => readResponse env b
          | .error e => errorResponse e),
         { world := w2,
           trace := s1.trace ++ [.evaluateTransaction c "ReadAsset" [.string id] r] })) := by
  rcases hc : connectToFabric env s with ⟨e | c, s1⟩
  · exact Or.inl ⟨e, s1, rfl, getAsset_connect_error env id s s1 e hc⟩
  rcases hs : env.evaluateTransaction c "ReadAsset" [.string id] s1.world with ⟨e | b, w2⟩
  · exact Or.inr ⟨c, s1, .error e, w2, rfl, hs,
      getAsset_evaluate_error env id s s1 c e w2 hc hs⟩
  · exact Or.inr ⟨c, s1, .ok b, w2, rfl, hs, getAsset_evaluate_ok env id s s1 c b w2 hc hs⟩

/-- A successful connection from an empty trace leaves exactly the connection
events in the trace. -/
theorem connectToFabric_ok_trace {W : Type} (env : Env W) (w : W) (s1 : St W) (c : Contract)
    (h : connectToFabric env { world := w, trace := [] } = (.ok c, s1)) :
    ∃ text ccp wallet gateway network,
      s1.trace = connectEvents env text ccp wallet gateway network c := by
  obtain ⟨text, ccp, wallet, gateway, network, _, _, _, _, _, _, _, _, _, _, _, _, ht⟩ :=
    connectToFabric_ok env _ s1 c h
  exact ⟨text, ccp, wallet, gateway, network, by simpa using ht⟩

theorem contractCalls_connectEvents {W : Type} (env : Env W) (text : String) (ccp : JsValue)
    (wallet : Wallet) (gateway : Gateway) (network : Network) (contract : Contract) :
    contractCalls (connectEvents env text ccp wallet gateway network contract) = [] := by
  simp [contractCalls, connectEvents, Event.isContractCall, Event.isSubmit, Event.isEvaluate]

theorem contractCalls_append (t1 t2 : List Event) :
    contractCalls (t1 ++ t2) = contractCalls t1 ++ contractCalls t2 := by
  simp [contractCalls]

/-! ## The handlers on success -/

/-- C1: for a body with fields `id` and `value`, when `connectToFabric` succeeds
with contract `c` and the submit call succeeds, the POST handler answers 201 with
the body `message: 'Asset created successfully'`, and its only contract
invocation is `submitTransaction` on `c` with name `CreateAsset` and the
arguments `id` then `value`, exactly as read from the body. -/
theorem postAssets_created {W : Type} (env : Env W) (w : W)
    (fields : List (String × JsValue)) (c : Contract) (s1 : St W) (result : Buffer) (w2 : W)
    (hconn : connectToFabric env { world := w, trace := [] } = (.ok c, s1))
    (hsubmit : env.submitTransaction c "CreateAsset"
      [lookupField fields "id", lookupField fields "value"] s1.world = (.ok result, w2)) :
    (postAssets env (.object fields) { world := w, trace := [] }).1 =
      { status := 201, body := .json [("message", .string "Asset created successfully")] } ∧
    contractCalls (postAssets env (.object fields) { world := w, trace := [] }).2.trace =
      [.submitTransaction c "CreateAsset"
        [lookupField fields "id", lookupField fields "value"] (.ok result)] ∧
    (postAssets env (.object fields) { world := w, trace := [] }).2.world = w2 := by
  have hd : destructure (.object fields) =
      .ok (lookupField fields "id", lookupField fields "value") := rfl
  rw [postAssets_submit_ok env _ _ _ _ s1 c result w2 hconn hd hsubmit]
  obtain ⟨text, ccp, wallet, gateway, network, ht⟩ := connectToFabric_ok_trace env w s1 c hconn
  refine ⟨rfl, ?_, rfl⟩
  show contractCalls (s1.trace ++ _) = _
  rw [ht, contractCalls_append, contractCalls_connectEvents]
  rfl

/-- Witness for C1 on the sample network: posting `asset1` with value `100` to an
empty ledger. -/
theorem postAssets_created_witness :
    (postAssets sampleEnv (.object [("id", .string "asset1"), ("value", .string "100")])
      { world := [], trace := [] }).1 =
      { status := 201, body := .json [("message", .string "Asset created successfully")] } ∧
    contractCalls (postAssets sampleEnv
      (.object [("id", .string "asset1"), ("value", .string "100")])
      { world := [], trace := [] }).2.trace =
      [.submitTransaction { ref := 4 } "CreateAsset" [.string "asset1", .string "100"]
        (.ok { bytes := [] })] ∧
    (postAssets sampleEnv (.object [("id", .string "asset1"), ("value", .string "100")])
      { world := [], trace := [] }).2.world = [("asset1", "100")] :=
  postAssets_created sampleEnv [] [("id", .string "asset1"), ("value", .string "100")]
    { ref := 4 }
    { world := [],
      trace := (connectEvents sampleEnv "profile" (.object [("name", .string "test-network")])
        { ref := 1 } { ref := 2 } { ref := 3 } { ref := 4 }) }
    { bytes := [] } [("asset1", "100")] rfl rfl

/-- C2: for a path parameter `id`, when `connectToFabric` succeeds with contract
`c` and the evaluate call returns `result`, the GET handler answers 200 with the
text of `result` as the whole body, and its only contract invocation is
`evaluateTransaction` on `c` with name `ReadAsset` and the single argument
`id`. -/
theorem getAsset_found {W : Type} (env : Env W) (w : W) (id : String) (c : Contract)
    (s1 : St W) (result : Buffer) (w2 : W)
    (hconn : connectToFabric env { world := w, trace := [] } = (.ok c, s1))
    (heval : env.evaluateTransaction c "ReadAsset" [.string id] s1.world = (.ok result, w2)) :
    (getAsset env id { world := w, trace := [] }).1 =
      { status := 200, body := .text (env.bufferToString result) } ∧
    contractCalls (getAsset env id { world := w, trace := [] }).2.trace =
      [.evaluateTransaction c "ReadAsset" [.string id] (.ok result)] ∧
    (getAsset env id { world := w, trace := [] }).2.world = w2 := by
  rw [getAsset_evaluate_ok env _ _ s1 c result w2 hconn heval]
  obtain ⟨text, ccp, wallet, gateway, network, ht⟩ := connectToFabric_ok_trace env w s1 c hconn
  refine ⟨rfl, ?_, rfl⟩
  show contractCalls (s1.trace ++ _) = _
  rw [ht, contractCalls_append, contractCalls_connectEvents]
  rfl

/-- Witness for C2 on the sample network: reading `asset1` from a ledger that
holds it with value `100`. -/
theorem getAsset_found_witness :
    (getAsset sampleEnv "asset1" { world := [("asset1", "100")], trace := [] }).1 =
      { status := 200, body := .text "100" } ∧
    contractCalls (getAsset sampleEnv "asset1"
      { world := [("asset1", "100")], trace := [] }).2.trace =
      [.evaluateTransaction { ref := 4 } "ReadAsset" [.string "asset1"]
        (.ok { bytes := [49, 48, 48] })] ∧
    (getAsset sampleEnv "asset1" { world := [("asset1", "100")], trace := [] }).2.world =
      [("asset1", "100")] :=
  getAsset_found sampleEnv [("asset1", "100")] "asset1" { ref := 4 }
    { world := [("asset1", "100")],
      trace := (connectEvents sampleEnv "profile" (.object [("name", .string "test-network")])
        { ref := 1 } { ref := 2 } { ref := 3 } { ref := 4 }) }
    { bytes := [49, 48, 48] } [("asset1", "100")] rfl rfl

/-! ## The handlers on failure -/

/-- C3: when `connectToFabric` succeeds and the submit call (POST) or the
evaluate call (GET) rejects with an error of message `m`, the response has status
500 and body `error: m` with `m` unchanged, and it is not a 201 or 200
response. -/
theorem rejection_is_500 {W : Type} (env : Env W) (w : W) (c : Contract) (s1 : St W)
    (e : JsError) (w2 : W)
    (hconn : connectToFabric env { world := w, trace := [] } = (.ok c, s1)) :
    (∀ body id value, destructure body = .ok (id, value) →
      env.submitTransaction c "CreateAsset" [id, value] s1.world = (.error e, w2) →
      (postAssets env body { world := w, trace := [] }).1 =
        { status := 500, body := .json [("error", .string e.message)] } ∧
      (postAssets env body { world := w, trace := [] }).1.status ≠ 201 ∧
      (postAssets env body { world := w, trace := [] }).1.status ≠ 200) ∧
    (∀ id, env.evaluateTransaction c "ReadAsset" [.string id] s1.world = (.error e, w2) →
      (getAsset env id { world := w, trace := [] }).1 =
        { status := 500, body := .json [("error", .string e.message)] } ∧
      (getAsset env id { world := w, trace := [] }).1.status ≠ 201 ∧
      (getAsset env id { world := w, trace := [] }).1.status ≠ 200) := by
  constructor
  · intro body id value hd hs
    rw [postAssets_submit_error env body id value _ s1 c e w2 hconn hd hs]
    exact ⟨rfl, by simp [errorResponse], by simp [errorResponse]⟩
  · intro id hs
    rw [getAsset_evaluate_error env id _ s1 c e w2 hconn hs]
    exact ⟨rfl, by simp [errorResponse], by simp [errorResponse]⟩

/-- Witness for C3 on the sample network: creating `asset1` twice, and reading an
asset from the ledger that does not hold it. -/
theorem rejection_is_500_witness :
    ((postAssets sampleEnv (.object [("id", .string "asset1"), ("value", .string "100")])
        { world := [("asset1", "100")], trace := [] }).1 =
        { status := 500, body := .json [("error", .string "the asset already exists")] } ∧
      (postAssets sampleEnv (.object [("id", .string "asset1"), ("value", .string "100")])
        { world := [("asset1", "100")], trace := [] }).1.status ≠ 201 ∧
      (postAssets sampleEnv (.object [("id", .string "asset1"), ("value", .string "100")])
        { world := [("asset1", "100")], trace := [] }).1.status ≠ 200) ∧
    ((getAsset sampleEnv "nonexistent" { world := [], trace := [] }).1 =
        { status := 500, body := .json [("error", .string "the asset does not exist")] } ∧
      (getAsset sampleEnv "nonexistent" { world := [], trace := [] }).1.status ≠ 201 ∧
      (getAsset sampleEnv "nonexistent" { world := [], trace := [] }).1.status ≠ 200) :=
  ⟨(rejection_is_500 sampleEnv [("asset1", "100")] { ref := 4 }
      { world := [("asset1", "100")],
        trace := (connectEvents sampleEnv "profile"
          (.object [("name", .string "test-network")])
          { ref := 1 } { ref := 2 } { ref := 3 } { ref := 4 }) }
      { message := "the asset already exists" } [("asset1", "100")] rfl).1
      (.object [("id", .string "asset1"), ("value", .string "100")])
      (.string "asset1") (.string "100") rfl rfl,
   (rejection_is_500 sampleEnv [] { ref := 4 }
      { world := [],
        trace := (connectEvents sampleEnv "profile"
          (.object [("name", .string "test-network")])
          { ref := 1 } { ref := 2 } { ref := 3 } { ref := 4 }) }
      { message := "the asset does not exist" } [] rfl).2 "nonexistent" rfl⟩

/-- C4: when reading or JSON-parsing the network profile fails with `e`, both
handlers answer 500 with body `error: e.message`, and neither makes a contract
invocation, opens the wallet, or creates or connects a gateway. -/
theorem profile_failure_is_500 {W : Type} (env : Env W) (w : W) (e : JsError)
    (body : JsValue) (id : String) (h : ProfileFails env w e) :
    ((postAssets env body { world := w, trace := [] }).1 =
        { status := 500, body := .json [("error", .string e.message)] } ∧
      ∀ ev ∈ (postAssets env body { world := w, trace := [] }).2.trace,
        ev.isContractCall = false ∧ ev.isWalletOpen = false ∧ ev.isGatewayStep = false) ∧
    ((getAsset env id { world := w, trace := [] }).1 =
        { status := 500, body := .json [("error", .string e.message)] } ∧
      ∀ ev ∈ (getAsset env id { world := w, trace := [] }).2.trace,
        ev.isContractCall = false ∧ ev.isWalletOpen = false ∧ ev.isGatewayStep = false) := by
  obtain ⟨s1, t, hc, ht, hno⟩ :=
    connectToFabric_profileFails env { world := w, trace := [] } e h
  rw [postAssets_connect_error env body _ s1 e hc, getAsset_connect_error env id _ s1 e hc]
  simp only [List.nil_append] at ht
  subst ht
  exact ⟨⟨rfl, hno⟩, ⟨rfl, hno⟩⟩

/-- Witness for C4: the sample network with the profile file missing. -/
theorem profile_failure_is_500_witness :
    ((postAssets noProfileEnv (.object []) { world := [], trace := [] }).1 =
        { status := 500,
          body := .json [("error", .string "ENOENT: no such file or directory")] } ∧
      ∀ ev ∈ (postAssets noProfileEnv (.object []) { world := [], trace := [] }).2.trace,
        ev.isContractCall = false ∧ ev.isWalletOpen = false ∧ ev.isGatewayStep = false) ∧
    ((getAsset noProfileEnv "asset1" { world := [], trace := [] }).1 =
        { status := 500,
          body := .json [("error", .string "ENOENT: no such file or directory")] } ∧
      ∀ ev ∈ (getAsset noProfileEnv "asset1" { world := [], trace := [] }).2.trace,
        ev.isContractCall = false ∧ ev.isWalletOpen = false ∧ ev.isGatewayStep = false) :=
  profile_failure_is_500 noProfileEnv [] { message := "ENOENT: no such file or directory" }
    (.object []) "asset1" (Or.inl ⟨[], rfl⟩)

/-- C5: when `User1` is absent from the wallet, so that connecting the gateway
as `User1` fails, both handlers answer 500 and make no contract invocation at
all. -/
theorem missing_identity_is_500 {W : Type} (env : Env W) (w : W) (body : JsValue)
    (id : String) (h : User1Absent env) :
    ((postAssets env body { world := w, trace := [] }).1.status = 500 ∧
      contractCalls (postAssets env body { world := w, trace := [] }).2.trace = []) ∧
    ((getAsset env id { world := w, trace := [] }).1.status = 500 ∧
      contractCalls (getAsset env id { world := w, trace := [] }).2.trace = []) := by
  rcases hc : connectToFabric env { world := w, trace := [] } with ⟨e | c, s1⟩
  · rw [postAssets_connect_error env body _ s1 e hc, getAsset_connect_error env id _ s1 e hc]
    obtain ⟨t, ev, ht, _, hev, hall⟩ := connectToFabric_error_trace env _ s1 e hc
    have hnone : contractCalls s1.trace = [] := by
      rw [ht]
      simp only [contractCalls, List.nil_append, List.filter_eq_nil_iff, List.mem_append,
        List.mem_singleton]
      rintro x (hx | rfl)
      · simp [(hall x hx).1]
      · simp [hev]
    exact ⟨⟨rfl, hnone⟩, ⟨rfl, hnone⟩⟩
  · obtain ⟨text, ccp, wallet, gateway, network, w1, w2, w3, w4, w5, _, _, _, _, h5, _⟩ :=
      connectToFabric_ok env _ s1 c hc
    obtain ⟨e, w6, h6⟩ := h gateway ccp wallet w3
    rw [h6] at h5
    simp at h5

/-- Witness for C5: the sample network with `User1` missing from the wallet. -/
theorem missing_identity_is_500_witness :
    ((postAssets noIdentityEnv (.object [("id", .string "asset1"), ("value", .string "100")])
        { world := [], trace := [] }).1.status = 500 ∧
      contractCalls (postAssets noIdentityEnv
        (.object [("id", .string "asset1"), ("value", .string "100")])
        { world := [], trace := [] }).2.trace = []) ∧
    ((getAsset noIdentityEnv "asset1" { world := [], trace := [] }).1.status = 500 ∧
      contractCalls (getAsset noIdentityEnv "asset1" { world := [], trace := [] }).2.trace =
        []) :=
  missing_identity_is_500 noIdentityEnv []
    (.object [("id", .string "asset1"), ("value", .string "100")]) "asset1"
    (fun _ _ _ w => ⟨{ message := "Identity not found in wallet: User1" }, w, rfl⟩)

/-- The events of a run of either handler from an empty trace: successful
connection steps and then at most one more event, the only one that can have
failed; the response is the `catch` response exactly when an event failed or the
destructuring threw. -/
theorem postAssets_shape {W : Type} (env : Env W) (body : JsValue) (w : W) :
    (∃ t ev e, (postAssets env body { world := w, trace := [] }).2.trace = t ++ [ev] ∧
      (∀ x ∈ t, x.failure = none) ∧ ev.failure = some e ∧
      (postAssets env body { world := w, trace := [] }).1 = errorResponse e) ∨
    (∃ e, (∀ x ∈ (postAssets env body { world := w, trace := [] }).2.trace, x.failure = none) ∧
      destructure body = .error e ∧
      (postAssets env body { world := w, trace := [] }).1 = errorResponse e) ∨
    ((∀ x ∈ (postAssets env body { world := w, trace := [] }).2.trace, x.failure = none) ∧
      (∃ p, destructure body = .ok p) ∧
      (postAssets env body { world := w, trace := [] }).1 = createdResponse) := by
  rcases postAssets_cases env body { world := w, trace := [] } with
    ⟨e, s1, hc, hp⟩ | ⟨c, s1, e, hc, hd, hp⟩ | ⟨c, s1, id, value, r, w2, hc, hd, hs, hp⟩
  · obtain ⟨t, ev, ht, hev, _, hall⟩ := connectToFabric_error_trace env _ s1 e hc
    rw [hp]
    exact Or.inl ⟨t, ev, e, by simpa using ht, fun x hx => (hall x hx).2, hev, rfl⟩
  · obtain ⟨text, ccp, wallet, gateway, network, ht⟩ := connectToFabric_ok_trace env w s1 c hc
    rw [hp]
    refine Or.inr (Or.inl ⟨e, ?_, hd, rfl⟩)
    intro x hx
    rw [ht] at hx
    exact (connectEvents_noContractCall env text ccp wallet gateway network c x hx).2
  · obtain ⟨text, ccp, wallet, gateway, network, ht⟩ := connectToFabric_ok_trace env w s1 c hc
    rw [hp]
    have hconn : ∀ x ∈ s1.trace, x.failure = none := by
      intro x hx
      rw [ht] at hx
      exact (connectEvents_noContractCall env text ccp wallet gateway network c x hx).2
    rcases r with e | b
    · exact Or.inl ⟨s1.trace, _, e, rfl, hconn, rfl, rfl⟩
    · refine Or.inr (Or.inr ⟨?_, ⟨(id, value), hd⟩, rfl⟩)
      intro x hx
      simp only [List.mem_append, List.mem_singleton] at hx
      rcases hx with hx | rfl
      · exact hconn x hx
      · rfl

theorem getAsset_shape {W : Type} (env : Env W) (id : String) (w : W) :
    (∃ t ev e, (getAsset env id { world := w, trace := [] }).2.trace = t ++ [ev] ∧
      (∀ x ∈ t, x.failure = none) ∧ ev.failure = some e ∧
      (getAsset env id { world := w, trace := [] }).1 = errorResponse e) ∨
    ((∀ x ∈ (getAsset env id { world := w, trace := [] }).2.trace, x.failure = none) ∧
      ∃ b, (getAsset env id { world := w, trace := [] }).1 = readResponse env b) := by
  rcases getAsset_cases env id { world := w, trace := [] } with
    ⟨e, s1, hc, hp⟩ | ⟨c, s1, r, w2, hc, hs, hp⟩
  · obtain ⟨t, ev, ht, hev, _, hall⟩ := connectToFabric_error_trace env _ s1 e hc
    rw [hp]
    exact Or.inl ⟨t, ev, e, by simpa using ht, fun x hx => (hall x hx).2, hev, rfl⟩
  · obtain ⟨text, ccp, wallet, gateway, network, ht⟩ := connectToFabric_ok_trace env w s1 c hc
    rw [hp]
    have hconn : ∀ x ∈ s1.trace, x.failure = none := by
      intro x hx
      rw [ht] at hx
      exact (connectEvents_noContractCall env text ccp wallet gateway network c x hx).2
    rcases r with e | b
    · exact Or.inl ⟨s1.trace, _, e, rfl, hconn, rfl, rfl⟩
    · refine Or.inr ⟨?_, b, rfl⟩
      intro x hx
      simp only [List.mem_append, List.mem_singleton] at hx
      rcases hx with hx | rfl
      · exact hconn x hx
      · rfl

/-- C6, as stated, fails: a POST whose body is the unparsable text of a single
opening brace is rejected by `express.json()` (line 7) with status 400 before
the route handler runs, so the handler's `catch` never sees it; the default
error handler answers 400, not 500, and the body is not the handler's `error`
object. -/
theorem malformed_json_is_400 :
    sampleEnv.json "\x7b" = .error { status := 400, message := "Unexpected token in JSON" } ∧
    (app sampleEnv { route := .postAssets, rawBody := "\x7b" }
      { world := [], trace := [] }).1.status = 400 ∧
    (app sampleEnv { route := .postAssets, rawBody := "\x7b" }
      { world := [], trace := [] }).1.status ≠ 500 ∧
    (app sampleEnv { route := .postAssets, rawBody := "\x7b" }
      { world := [], trace := [] }).2.trace = [] := by
  exact ⟨rfl, by decide, by decide, rfl⟩

/-- C6, amended: a request the body parser rejects never reaches a route handler
and is answered by the default error handler; for a request that reaches its
handler, every failure inside it (an environment call that failed with `e`, or,
for POST with every call successful, the destructuring of a nullish body
throwing `e`) is answered with status 500 and body `error: e.message`. -/
theorem handler_failure_is_500 {W : Type} (env : Env W) (w : W) (req : Request) :
    (∀ err, env.json req.rawBody = .error err →
      app env req { world := w, trace := [] } =
        (env.finalHandler err, { world := w, trace := [] })) ∧
    (∀ body e, env.json req.rawBody = .ok body →
      ((∃ ev ∈ (app env req { world := w, trace := [] }).2.trace, ev.failure = some e) ∨
        (req.route = .postAssets ∧
          (∀ ev ∈ (app env req { world := w, trace := [] }).2.trace, ev.failure = none) ∧
          destructure body = .error e)) →
      (app env req { world := w, trace := [] }).1 =
        { status := 500, body := .json [("error", .string e.message)] }) := by
  constructor
  · intro err herr
    simp only [app, herr]
  · intro body e hbody hfail
    obtain ⟨route, raw⟩ := req
    simp only at hbody hfail
    cases route with
    | postAssets =>
      simp only [app, hbody] at hfail ⊢
      rcases postAssets_shape env body w with
        ⟨t, ev, e1, ht, hall, hev, hr⟩ | ⟨e1, hall, hd, hr⟩ | ⟨hall, ⟨p, hd⟩, hr⟩
      · rw [hr]
        rcases hfail with ⟨x, hx, hxe⟩ | ⟨_, hnone, _⟩
        · rw [ht] at hx
          simp only [List.mem_append, List.mem_singleton] at hx
          rcases hx with hx | rfl
          · rw [hall x hx] at hxe
            cases hxe
          · rw [hev] at hxe
            cases hxe
            rfl
        · have := hnone ev (by rw [ht]; simp)
          rw [hev] at this
          cases this
      · rw [hr]
        rcases hfail with ⟨x, hx, hxe⟩ | ⟨_, _, hd2⟩
        · rw [hall x hx] at hxe
          cases hxe
        · rw [hd] at hd2
          cases hd2
          rfl
      · rcases hfail with ⟨x, hx, hxe⟩ | ⟨_, _, hd2⟩
        · rw [hall x hx] at hxe
          cases hxe
        · rw [hd] at hd2
          cases hd2
    | getAssetsId id =>
      simp only [app, hbody] at hfail ⊢
      rcases getAsset_shape env id w with ⟨t, ev, e1, ht, hall, hev, hr⟩ | ⟨hall, b, hr⟩
      · rw [hr]
        rcases hfail with ⟨x, hx, hxe⟩ | ⟨hroute, _, _⟩
        · rw [ht] at hx
          simp only [List.mem_append, List.mem_singleton] at hx
          rcases hx with hx | rfl
          · rw [hall x hx] at hxe
            cases hxe
          · rw [hev] at hxe
            cases hxe
            rfl
        · cases hroute
      · rcases hfail with ⟨x, hx, hxe⟩ | ⟨hroute, _, _⟩
        · rw [hall x hx] at hxe
          cases hxe
        · cases hroute

/-- Witness for the amended C6: a rejected body on the sample network, and a
read on the network whose profile is missing. -/
theorem handler_failure_is_500_witness :
    app sampleEnv { route := .postAssets, rawBody := "\x7b" } { world := [], trace := [] } =
      ({ status := 400, body := .text "Unexpected token in JSON" },
        { world := [], trace := [] }) ∧
    (app noProfileEnv { route := .getAssetsId "asset1", rawBody := "" }
      { world := [], trace := [] }).1 =
      { status := 500,
        body := .json [("error", .string "ENOENT: no such file or directory")] } :=
  ⟨(handler_failure_is_500 sampleEnv [] { route := .postAssets, rawBody := "\x7b" }).1
      { status := 400, message := "Unexpected token in JSON" } rfl,
   (handler_failure_is_500 noProfileEnv [] { route := .getAssetsId "asset1", rawBody := "" }).2
      (.object []) { message := "ENOENT: no such file or directory" } rfl
      (Or.inl ⟨.readFileSync "/srv/Reset-api/connection.json" "utf8"
        (.error { message := "ENOENT: no such file or directory" }),
        List.mem_singleton.2 rfl, rfl⟩)⟩

/-! ## Runs of the handlers follow the environment -/

theorem catch_lawful {W : Type} (env : Env W) (m : Eff W Response) (hm : Lawful env m)
    (s : St W) :
    ∃ t, (match m s with
        | (.ok res, s1) => (res, s1)
        | (.error error, s1) => (errorResponse error, s1)).2.trace = s.trace ++ t ∧
      Replays env s.world t (match m s with
        | (.ok res, s1) => (res, s1)
        | (.error error, s1) => (errorResponse error, s1)).2.world ∧
      ∀ (s2 : St W) (w2 : W), Replays env s2.world t w2 →
        (match m s2 with
          | (.ok res, s1) => (res, s1)
          | (.error error, s1) => (errorResponse error, s1)) =
        ((match m s with
          | (.ok res, s1) => (res, s1)
          | (.error error, s1) => (errorResponse error, s1)).1,
          { world := w2, trace := s2.trace ++ t }) := by
  obtain ⟨t, ht, hr, hd⟩ := hm s
  refine ⟨t, ?_, ?_, ?_⟩
  · rcases h : m s with ⟨e | a, s1⟩ <;> simpa [h] using ht
  · rcases h : m s with ⟨e | a, s1⟩ <;> simpa [h] using hr
  · intro s2 w2 h2
    rw [hd s2 w2 h2]
    rcases h : m s with ⟨e | a, s1⟩ <;> rfl

theorem postAssets_lawful {W : Type} (env : Env W) (body : JsValue) (s : St W) :
    ∃ t, (postAssets env body s).2.trace = s.trace ++ t ∧
      Replays env s.world t (postAssets env body s).2.world ∧
      ∀ (s2 : St W) (w2 : W), Replays env s2.world t w2 →
        postAssets env body s2 =
          ((postAssets env body s).1, { world := w2, trace := s2.trace ++ t }) :=
  catch_lawful env _ (postAssetsTry_lawful env body) s

theorem getAsset_lawful {W : Type} (env : Env W) (id : String) (s : St W) :
    ∃ t, (getAsset env id s).2.trace = s.trace ++ t ∧
      Replays env s.world t (getAsset env id s).2.world ∧
      ∀ (s2 : St W) (w2 : W), Replays env s2.world t w2 →
        getAsset env id s2 =
          ((getAsset env id s).1, { world := w2, trace := s2.trace ++ t }) :=
  catch_lawful env _ (getAssetTry_lawful env id) s

theorem app_lawful {W : Type} (env : Env W) (req : Request) (s : St W) :
    ∃ t, (app env req s).2.trace = s.trace ++ t ∧
      Replays env s.world t (app env req s).2.world ∧
      ∀ (s2 : St W) (w2 : W), Replays env s2.world t w2 →
        app env req s2 = ((app env req s).1, { world := w2, trace := s2.trace ++ t }) := by
  obtain ⟨route, raw⟩ := req
  rcases hj : env.json raw with err | body
  · refine ⟨[], by simp [app, hj], by simp [app, hj, Replays], ?_⟩
    intro s2 w2 h2
    simp only [Replays] at h2
    subst h2
    simp [app, hj]
  · cases route with
    | postAssets => simpa [app, hj] using postAssets_lawful env body s
    | getAssetsId id => simpa [app, hj] using getAsset_lawful env id s

theorem Replays_view {W L : Type} (env : Env W) (view : W → L)
    (hview : LedgerChangedOnlyBySubmit env view) (t : List Event) :
    ∀ (w w1 : W), Replays env w t w1 → (∀ ev ∈ t, ev.isSubmit = false) → view w1 = view w := by
  induction t with
  | nil =>
    intro w w1 h _
    simp only [Replays] at h
    rw [h]
  | cons ev rest ih =>
    intro w w1 h hall
    obtain ⟨wm, hp, hrest⟩ := h
    rw [ih wm w1 hrest (fun x hx => hall x (List.mem_cons_of_mem _ hx)),
      hview ev w wm (hall ev (List.mem_cons_self _ _)) hp]

/-! ## Frame of the read handler -/

/-- C7: the GET handler is read-only.  Whatever the environment does, its trace
holds no `submitTransaction`, its contract invocations are at most one and that
one is an `evaluateTransaction`; so, submit being the only operation that changes
the ledger, the ledger after the request is the ledger before it. -/
theorem getAsset_read_only {W : Type} (env : Env W) (w : W) (id : String) :
    (∀ ev ∈ (getAsset env id { world := w, trace := [] }).2.trace, ev.isSubmit = false) ∧
    (contractCalls (getAsset env id { world := w, trace := [] }).2.trace).length ≤ 1 ∧
    (∀ ev ∈ contractCalls (getAsset env id { world := w, trace := [] }).2.trace,
      ev.isEvaluate = true) ∧
    (∀ (L : Type) (view : W → L), LedgerChangedOnlyBySubmit env view →
      view (getAsset env id { world := w, trace := [] }).2.world = view w) := by
  have hsub : ∀ ev ∈ (getAsset env id { world := w, trace := [] }).2.trace,
      ev.isSubmit = false ∧ (ev.isContractCall = true → ev.isEvaluate = true) := by
    rcases getAsset_cases env id { world := w, trace := [] } with
      ⟨e, s1, hc, hp⟩ | ⟨c, s1, r, w2, hc, hs, hp⟩
    · obtain ⟨t, ev, ht, _, hev, hall⟩ := connectToFabric_error_trace env _ s1 e hc
      rw [hp, ht]
      intro x hx
      simp only [List.nil_append, List.mem_append, List.mem_singleton] at hx
      have hx2 : x.isContractCall = false := by
        rcases hx with hx | rfl
        · exact (hall x hx).1
        · exact hev
      simp only [Event.isContractCall, Bool.or_eq_false_iff] at hx2
      simp [Event.isContractCall, hx2.1, hx2.2]
    · obtain ⟨text, ccp, wallet, gateway, network, ht⟩ :=
        connectToFabric_ok_trace env w s1 c hc
      rw [hp, ht]
      intro x hx
      simp only [List.mem_append, List.mem_singleton] at hx
      rcases hx with hx | rfl
      · have hx2 := (connectEvents_noContractCall env text ccp wallet gateway network c x hx).1
        simp only [Event.isContractCall, Bool.or_eq_false_iff] at hx2
        simp [Event.isContractCall, hx2.1, hx2.2]
      · simp [Event.isSubmit, Event.isEvaluate]
  refine ⟨fun ev hev => (hsub ev hev).1, ?_, ?_, ?_⟩
  · rcases getAsset_cases env id { world := w, trace := [] } with
      ⟨e, s1, hc, hp⟩ | ⟨c, s1, r, w2, hc, hs, hp⟩
    · obtain ⟨t, ev, ht, _, hev, hall⟩ := connectToFabric_error_trace env _ s1 e hc
      rw [hp, ht]
      have : contractCalls ([] ++ (t ++ [ev])) = [] := by
        simp only [contractCalls, List.nil_append, List.filter_eq_nil_iff, List.mem_append,
          List.mem_singleton]
        rintro x (hx | rfl)
        · simp [(hall x hx).1]
        · simp [hev]
      simp only [List.nil_append] at this ⊢
      rw [this]
      simp
    · obtain ⟨text, ccp, wallet, gateway, network, ht⟩ :=
        connectToFabric_ok_trace env w s1 c hc
      rw [hp, ht]
      show (contractCalls (_ ++ _)).length ≤ 1
      rw [contractCalls_append, contractCalls_connectEvents]
      simp [contractCalls, Event.isContractCall, Event.isSubmit, Event.isEvaluate]
  · intro ev hev
    simp only [contractCalls, List.mem_filter] at hev
    exact (hsub ev hev.1).2 hev.2
  · intro L view hview
    obtain ⟨t, ht, hr, _⟩ := getAsset_lawful env id { world := w, trace := [] }
    simp only [List.nil_append] at ht
    rw [← ht] at hr
    exact Replays_view env view hview _ _ _ hr (fun ev hev => (hsub ev hev).1)

theorem sampleEnv_ledger : LedgerChangedOnlyBySubmit sampleEnv (fun w => w) := by
  intro ev w w1 hev hp
  cases ev with
  | submitTransaction c n args res => cases hev
  | evaluateTransaction c n args res =>
    simp only [Event.performedAt, sampleEnv] at hp
    split at hp
    · split at hp <;> exact (congrArg Prod.snd hp).symm
    · exact (congrArg Prod.snd hp).symm
  | _ => exact (congrArg Prod.snd hp).symm

/-- Witness for C7: on the sample network only `submitTransaction` changes the
toy ledger, and a read of `asset1` leaves the ledger as it was. -/
theorem getAsset_read_only_witness :
    LedgerChangedOnlyBySubmit sampleEnv (fun w => w) ∧
    (getAsset sampleEnv "asset1" { world := [("asset1", "100")], trace := [] }).2.world =
      [("asset1", "100")] :=
  ⟨sampleEnv_ledger,
   (getAsset_read_only sampleEnv [("asset1", "100")] "asset1").2.2.2 Ledger (fun w => w)
    sampleEnv_ledger⟩

/-! ## Requests do not share state -/

theorem serve_append {W : Type} (env : Env W) (a b : List Request) :
    ∀ w : W, serve env (a ++ b) w =
      ((serve env a w).1 ++ (serve env b (serve env a w).2).1,
        (serve env b (serve env a w).2).2) := by
  induction a with
  | nil =>
    intro w
    simp [serve]
  | cons req rest ih =>
    intro w
    show serve env (req :: (rest ++ b)) w = _
    simp only [serve, ih, List.cons_append]

/-- A contract call in the trace of a request comes right after the full
connection sequence of that same request, and is made on its contract. -/
theorem app_contractCall {W : Type} (env : Env W) (req : Request) (w : W) :
    ∀ ev ∈ (app env req { world := w, trace := [] }).2.trace, ev.isContractCall = true →
      ∃ text ccp wallet gateway network contract,
        (app env req { world := w, trace := [] }).2.trace =
          connectEvents env text ccp wallet gateway network contract ++ [ev] ∧
        ev.contract = some contract := by
  obtain ⟨route, raw⟩ := req
  rcases hj : env.json raw with err | body
  · simp [app, hj]
  have key : ∀ (run : Response × St W),
      ((∃ e s1, connectToFabric env { world := w, trace := [] } = (.error e, s1) ∧
          run.2 = s1) ∨
        (∃ c s1, connectToFabric env { world := w, trace := [] } = (.ok c, s1) ∧
          run.2 = s1) ∨
        (∃ c s1 ev w2, connectToFabric env { world := w, trace := [] } = (.ok c, s1) ∧
          ev.contract = some c ∧ run.2 = { world := w2, trace := s1.trace ++ [ev] })) →
      ∀ ev ∈ run.2.trace, ev.isContractCall = true →
        ∃ text ccp wallet gateway network contract,
          run.2.trace = connectEvents env text ccp wallet gateway network contract ++ [ev] ∧
          ev.contract = some contract := by
    intro run hrun ev hev hcall
    rcases hrun with ⟨e, s1, hc, hr⟩ | ⟨c, s1, hc, hr⟩ | ⟨c, s1, ev2, w2, hc, hcon, hr⟩
    · obtain ⟨t, x, ht, _, hx, hall⟩ := connectToFabric_error_trace env _ s1 e hc
      rw [hr, ht] at hev
      simp only [List.nil_append, List.mem_append, List.mem_singleton] at hev
      rcases hev with hev | rfl
      · rw [(hall ev hev).1] at hcall
        cases hcall
      · rw [hx] at hcall
        cases hcall
    · obtain ⟨text, ccp, wallet, gateway, network, ht⟩ :=
        connectToFabric_ok_trace env w s1 c hc
      rw [hr, ht] at hev
      rw [(connectEvents_noContractCall env text ccp wallet gateway network c ev hev).1]
        at hcall
      cases hcall
    · obtain ⟨text, ccp, wallet, gateway, network, ht⟩ :=
        connectToFabric_ok_trace env w s1 c hc
      rw [hr] at hev ⊢
      simp only [ht, List.mem_append, List.mem_singleton] at hev ⊢
      rcases hev with hev | rfl
      · rw [(connectEvents_noContractCall env text ccp wallet gateway network c ev hev).1]
          at hcall
        cases hcall
      · exact ⟨text, ccp, wallet, gateway, network, c, rfl, hcon⟩
  cases route with
  | postAssets =>
    simp only [app, hj]
    apply key
    rcases postAssets_cases env body { world := w, trace := [] } with
      ⟨e, s1, hc, hp⟩ | ⟨c, s1, e, hc, hd, hp⟩ | ⟨c, s1, id, value, r, w2, hc, hd, hs, hp⟩
    · exact Or.inl ⟨e, s1, hc, by rw [hp]⟩
    · exact Or.inr (Or.inl ⟨c, s1, hc, by rw [hp]⟩)
    · exact Or.inr (Or.inr ⟨c, s1, .submitTransaction c "CreateAsset" [id, value] r, w2, hc,
        rfl, by rw [hp]⟩)
  | getAssetsId id =>
    simp only [app, hj]
    apply key
    rcases getAsset_cases env id { world := w, trace := [] } with
      ⟨e, s1, hc, hp⟩ | ⟨c, s1, r, w2, hc, hs, hp⟩
    · exact Or.inl ⟨e, s1, hc, by rw [hp]⟩
    · exact Or.inr (Or.inr ⟨c, s1, .evaluateTransaction c "ReadAsset" [.string id] r, w2, hc,
        rfl, by rw [hp]⟩)

/-- C8: no connection handle survives across requests.  In a sequence of
requests the last one is handled from an empty trace in the world the earlier
ones left, nothing else being carried over; and in whatever world `w1` a
request is handled, a contract call it makes comes right after the full
connection sequence of that same request (profile read and parsed, wallet
opened, gateway created and connected, network and contract obtained) and is
made on the contract obtained there; its events are the environment's outcomes
during it; and in any world where the environment gives those same outcomes, in
particular when the request is handled first, the events and the response are
the same. -/
theorem request_independent_of_history {W : Type} (env : Env W) (w : W)
    (earlier : List Request) (req : Request) :
    serve env (earlier ++ [req]) w =
      ((serve env earlier w).1 ++
        [((app env req { world := (serve env earlier w).2, trace := [] }).1,
          (app env req { world := (serve env earlier w).2, trace := [] }).2.trace)],
        (app env req { world := (serve env earlier w).2, trace := [] }).2.world) ∧
    ∀ w1 : W,
      (∀ ev ∈ (app env req { world := w1, trace := [] }).2.trace, ev.isContractCall = true →
        ∃ text ccp wallet gateway network contract,
          (app env req { world := w1, trace := [] }).2.trace =
            connectEvents env text ccp wallet gateway network contract ++ [ev] ∧
          ev.contract = some contract) ∧
      Replays env w1 (app env req { world := w1, trace := [] }).2.trace
        (app env req { world := w1, trace := [] }).2.world ∧
      (∀ w0 wEnd : W, Replays env w0 (app env req { world := w1, trace := [] }).2.trace wEnd →
        app env req { world := w0, trace := [] } =
          ((app env req { world := w1, trace := [] }).1,
            { world := wEnd, trace := (app env req { world := w1, trace := [] }).2.trace })) := by
  constructor
  · rw [serve_append]
    simp only [serve]
  · intro w1
    obtain ⟨t, ht, hr, hd⟩ := app_lawful env req { world := w1, trace := [] }
    simp only [List.nil_append] at ht
    rw [← ht] at hr hd
    refine ⟨app_contractCall env req w1, hr, ?_⟩
    intro w0 wEnd h0
    simpa using hd { world := w0, trace := [] } wEnd h0

/-- Witness for C8 on the sample network: a read of `asset1` handled after a
create, and the same read in another world that gives it the same outcomes. -/
theorem request_independent_of_history_witness :
    Replays sampleEnv [("other", "1"), ("asset1", "100")]
      (app sampleEnv { route := .getAssetsId "asset1", rawBody := "" }
        { world := [("asset1", "100")], trace := [] }).2.trace
      [("other", "1"), ("asset1", "100")] ∧
    app sampleEnv { route := .getAssetsId "asset1", rawBody := "" }
        { world := [("other", "1"), ("asset1", "100")], trace := [] } =
      ((app sampleEnv { route := .getAssetsId "asset1", rawBody := "" }
          { world := [("asset1", "100")], trace := [] }).1,
        { world := [("other", "1"), ("asset1", "100")],
          trace := (app sampleEnv { route := .getAssetsId "asset1", rawBody := "" }
            { world := [("asset1", "100")], trace := [] }).2.trace }) :=
  ⟨⟨_, rfl, _, rfl, _, rfl, _, rfl, _, rfl, _, rfl, _, rfl, _, rfl, rfl⟩,
   ((request_independent_of_history sampleEnv []
      [{ route := .postAssets, rawBody := asset1Json }]
      { route := .getAssetsId "asset1", rawBody := "" }).2 [("asset1", "100")]).2.2
      [("other", "1"), ("asset1", "100")] [("other", "1"), ("asset1", "100")]
      ⟨_, rfl, _, rfl, _, rfl, _, rfl, _, rfl, _, rfl, _, rfl, _, rfl, rfl⟩⟩

/-! ## The connection sequence -/

/-- C9: a run of `connectToFabric` either succeeds, and then it has performed,
in this order and once each, exactly: read the profile at the resolved path
`Reset-api/connection.json` as `utf8`, JSON-parse what was read, open the
file-system wallet at the working directory joined with `wallet`, create a
gateway, connect it with the parsed profile, that wallet, identity `User1` and
discovery enabled as localhost, get network `mychannel`, get contract
`asset-transfer-basic`, and it returns that contract; or it fails at one step
`k`, and then it has performed the `k` steps before it, the failing step, and no
later step.  In both cases the events are what the environment did. -/
theorem connectToFabric_steps {W : Type} (env : Env W) (s : St W) :
    (∃ text ccp wallet gateway network contract,
      (connectToFabric env s).1 = .ok contract ∧
      (connectToFabric env s).2.trace = s.trace ++
        [ .readFileSync (env.resolve ["Reset-api", "connection.json"]) "utf8" (.ok text),
          .jsonParse text (.ok ccp),
          .newFileSystemWallet (env.join [env.cwd, "wallet"]) (.ok wallet),
          .newGateway gateway,
          .connect gateway ccp
            { wallet := wallet, identity := "User1",
              discoveryEnabled := true, discoveryAsLocalhost := true } (.ok ()),
          .getNetwork gateway "mychannel" (.ok network),
          .getContract network "asset-transfer-basic" (.ok contract) ] ∧
      Replays env s.world (connectEvents env text ccp wallet gateway network contract)
        (connectToFabric env s).2.world) ∨
    (∃ text ccp wallet gateway network contract e k, k < 7 ∧ k ≠ 3 ∧
      (connectToFabric env s).1 = .error e ∧
      (connectToFabric env s).2.trace = s.trace ++
        ((connectEvents env text ccp wallet gateway network contract).take k ++
          [failedStep env text ccp wallet gateway network e k]) ∧
      Replays env s.world
        ((connectEvents env text ccp wallet gateway network contract).take k ++
          [failedStep env text ccp wallet gateway network e k])
        (connectToFabric env s).2.world) := by
  obtain ⟨t, ht, hr, _⟩ := connectToFabric_lawful env s
  rcases hc : connectToFabric env s with ⟨e | c, s1⟩
  · rw [hc] at ht hr
    obtain ⟨text, ccp, wallet, gateway, network, contract, k, hk, hk3, hs1⟩ :=
      connectToFabric_error env s s1 e hc
    have : t = (connectEvents env text ccp wallet gateway network contract).take k ++
        [failedStep env text ccp wallet gateway network e k] :=
      List.append_cancel_left (ht.symm.trans hs1)
    subst this
    exact Or.inr ⟨text, ccp, wallet, gateway, network, contract, e, k, hk, hk3, rfl, hs1, hr⟩
  · rw [hc] at ht hr
    obtain ⟨text, ccp, wallet, gateway, network, _, _, _, _, _, _, _, _, _, _, _, _, hs1⟩ :=
      connectToFabric_ok env s s1 c hc
    have : t = connectEvents env text ccp wallet gateway network c :=
      List.append_cancel_left (ht.symm.trans hs1)
    subst this
    exact Or.inl ⟨text, ccp, wallet, gateway, network, c, rfl, hs1, hr⟩

/-! ## No validation in the POST handler -/

/-- C10: the POST handler does not validate `id` or `value`.  For every parsed
body (any value but `undefined` and `null`), whatever its `id` and `value`
fields are, the empty string and an absent field included, the handler first
runs `connectToFabric`; if that fails with `e` the answer is 500 with `e`; if it
succeeds the handler calls `submitTransaction` with `CreateAsset` and the two
fields exactly as read from the body, and answers 201 when the submit succeeds
and 500 with its error when it rejects. -/
theorem postAssets_no_validation {W : Type} (env : Env W) (w : W) (body : JsValue)
    (hu : body ≠ .undefined) (hn : body ≠ .null) :
    (∀ e s1, connectToFabric env { world := w, trace := [] } = (.error e, s1) →
      postAssets env body { world := w, trace := [] } = (errorResponse e, s1)) ∧
    (∀ c s1 r w2, connectToFabric env { world := w, trace := [] } = (.ok c, s1) →
      env.submitTransaction c "CreateAsset" [body.field "id", body.field "value"] s1.world =
        (r, w2) →
      postAssets env body { world := w, trace := [] } =
        ((match r with
          | .ok _ => createdResponse
          | .error e => errorResponse e),
         { world := w2,
           trace := s1.trace ++
             [.submitTransaction c "CreateAsset" [body.field "id", body.field "value"] r] })) := by
  have hd : destructure body = .ok (body.field "id", body.field "value") := by
    cases body <;> first | rfl | exact absurd rfl hu | exact absurd rfl hn
  constructor
  · intro e s1 hc
    exact postAssets_connect_error env body _ s1 e hc
  · intro c s1 r w2 hc hs
    rcases r with e | b
    · exact postAssets_submit_error env body _ _ _ s1 c e w2 hc hd hs
    · exact postAssets_submit_ok env body _ _ _ s1 c b w2 hc hd hs

/-- Witness for C10 on the sample network: a body whose `id` is the empty string
and whose `value` is missing still reaches `submitTransaction`, with the empty
string and `undefined`, and it is the chaincode that rejects it. -/
theorem postAssets_no_validation_witness :
    postAssets sampleEnv (.object [("id", .string "")]) { world := [], trace := [] } =
      (errorResponse { message := "Incorrect number of params. Expected 2" },
       { world := [],
         trace := connectEvents sampleEnv "profile"
             (.object [("name", .string "test-network")])
             { ref := 1 } { ref := 2 } { ref := 3 } { ref := 4 } ++
           [.submitTransaction { ref := 4 } "CreateAsset" [.string "", .undefined]
             (.error { message := "Incorrect number of params. Expected 2" })] }) :=
  (postAssets_no_validation sampleEnv [] (.object [("id", .string "")])
    (by intro h; cases h) (by intro h; cases h)).2 { ref := 4 }
    { world := [],
      trace := (connectEvents sampleEnv "profile" (.object [("name", .string "test-network")])
        { ref := 1 } { ref := 2 } { ref := 3 } { ref := 4 }) }
    (.error { message := "Incorrect number of params. Expected 2" }) [] rfl rfl

end SmartFalcon
